import Mathlib

/-!
Shallow embedding of the oumar_coach training core (src/core/models.py,
src/core/calculations.py, src/core/knowledge_base.py,
src/generators/workout_builder.py, src/periodization_system.py).

Conventions of the embedding:
* Python `int` values are modelled as `ℤ`; Python `float` values are modelled
  as `ℚ` (every numeric literal appearing in the source is an exact decimal,
  and at every concrete input examined below the double-precision computation
  agrees with the exact rational one).
* Python `int(x)` (truncation toward zero) is `pytrunc`; Python `//` on
  integers (floor division) is `Int.fdiv`.
* Python f-strings are modelled with `toString` concatenation.
* Dictionary literals keyed by strings, read with `d[k]` / `d.get(k, dflt)`,
  are modelled as chained `if`-tests on the (distinct) literal keys.
-/

/-- Python `int()` applied to a real quantity: truncation toward zero. -/
def pytrunc (q : ℚ) : ℤ := if 0 ≤ q then ⌊q⌋ else ⌈q⌉

/-- Python `str.lower()`: lower-casing character by character (all strings it
is applied to in the source are ASCII). -/
def pyLower (s : String) : String := String.mk (s.data.map Char.toLower)

/-- PowerZone (src/core/models.py, class PowerZone). -/
structure PowerZone where
  name : String
  power_pct_ftp : ℚ × ℚ
  hr_pct_max : ℤ × ℤ
  cadence_rpm : ℤ × ℤ
  objective : String
  duration_typical : String
  when_use : String
deriving DecidableEq, Repr

/-- WorkoutSegment (src/core/models.py, class WorkoutSegment). -/
structure WorkoutSegment where
  type : String
  duration_minutes : ℤ
  power_pct_ftp : ℚ × ℚ
  cadence_rpm : ℤ
  description : String
  scientific_rationale : String := ""
deriving DecidableEq, Repr

/-- RepeatedInterval (src/core/models.py, class RepeatedInterval). -/
structure RepeatedInterval where
  repetitions : ℤ
  work_duration : ℤ
  work_power_pct : ℚ × ℚ
  work_cadence : ℤ
  rest_duration : ℤ
  rest_power_pct : ℚ × ℚ
  rest_cadence : ℤ
  work_description : String
  rest_description : String
  scientific_rationale : String := ""
deriving DecidableEq, Repr

/-- RepeatedInterval.get_total_duration (src/core/models.py:92-94):
`self.repetitions * (self.work_duration + self.rest_duration)`. -/
def RepeatedInterval.get_total_duration (i : RepeatedInterval) : ℤ :=
  i.repetitions * (i.work_duration + i.rest_duration)

/-- SmartWorkout (src/core/models.py, class SmartWorkout). -/
structure SmartWorkout where
  name : String
  type : String
  description : String
  scientific_objective : String
  total_duration : ℤ
  segments : List WorkoutSegment
  repeated_intervals : List RepeatedInterval
  ftp : ℤ
  adaptation_notes : String := ""
  coaching_tips : String := ""
  estimated_tss : ℚ := 0
deriving DecidableEq, Repr

/-- SmartWorkout.calculate_actual_duration (src/core/models.py:111-115). -/
def SmartWorkout.calculate_actual_duration (w : SmartWorkout) : ℤ :=
  (w.segments.map fun s => s.duration_minutes).sum
    + (w.repeated_intervals.map fun i => i.get_total_duration).sum

/-! Knowledge base (src/core/knowledge_base.py): the POWER_ZONES table. -/

/-- Zone Z1 of POWER_ZONES (src/core/knowledge_base.py:13-21). -/
def Z1 : PowerZone :=
  { name := "Récupération Active"
    power_pct_ftp := (0.45, 0.55)
    hr_pct_max := (50, 60)
    cadence_rpm := (70, 80)
    objective := "Récupération sanguine, élimination des déchets métaboliques"
    duration_typical := "30-120 minutes"
    when_use := "Jours de récupération, retour au calme, entre intervalles" }

/-- Zone Z2 of POWER_ZONES (src/core/knowledge_base.py:22-30). -/
def Z2 : PowerZone :=
  { name := "Endurance Aérobie"
    power_pct_ftp := (0.56, 0.75)
    hr_pct_max := (60, 75)
    cadence_rpm := (85, 95)
    objective := "Améliorer endurance fondamentale, métabolisme des graisses, capacité aérobie"
    duration_typical := "60-300 minutes"
    when_use := "Base d'entraînement, sorties longues, échauffement final" }

/-- Zone Z3 of POWER_ZONES (src/core/knowledge_base.py:31-39). -/
def Z3 : PowerZone :=
  { name := "Tempo"
    power_pct_ftp := (0.76, 0.90)
    hr_pct_max := (76, 85)
    cadence_rpm := (85, 95)
    objective := "Améliorer capacité aérobie sans fatigue excessive, endurance musculaire"
    duration_typical := "20-90 minutes"
    when_use := "Blocs tempo, préparation aux efforts soutenus" }

/-- Zone Z4 of POWER_ZONES (src/core/knowledge_base.py:40-48). -/
def Z4 : PowerZone :=
  { name := "Seuil Lactique (FTP)"
    power_pct_ftp := (0.91, 1.05)
    hr_pct_max := (88, 92)
    cadence_rpm := (85, 95)
    objective := "Améliorer seuil anaérobie, FTP, capacité à maintenir efforts intenses"
    duration_typical := "8-60 minutes par bloc"
    when_use := "Améliorations FTP, préparation courses longues" }

/-- Zone Z5 of POWER_ZONES (src/core/knowledge_base.py:49-57). -/
def Z5 : PowerZone :=
  { name := "VO2max (PMA)"
    power_pct_ftp := (1.06, 1.20)
    hr_pct_max := (93, 100)
    cadence_rpm := (95, 105)
    objective := "Améliorer puissance maximale aérobie, consommation d'oxygène"
    duration_typical := "3-8 minutes par intervalle"
    when_use := "Ascensions courtes, efforts en peloton, pic de forme" }

/-- Zone Z6 of POWER_ZONES (src/core/knowledge_base.py:58-66). -/
def Z6 : PowerZone :=
  { name := "Capacité Anaérobie"
    power_pct_ftp := (1.21, 1.50)
    hr_pct_max := (95, 100)
    cadence_rpm := (100, 120)
    objective := "Améliorer capacité anaérobie, force explosive, sprints"
    duration_typical := "30 secondes - 2 minutes"
    when_use := "Sprints, montées explosives, finales de course" }

/-- Zone Z7 of POWER_ZONES (src/core/knowledge_base.py:67-75). -/
def Z7 : PowerZone :=
  { name := "Puissance Neuromusculaire"
    power_pct_ftp := (1.51, 3.00)
    hr_pct_max := (90, 100)
    cadence_rpm := (110, 130)
    objective := "Améliorer coordination neuromusculaire, force maximale"
    duration_typical := "5-15 secondes"
    when_use := "Sprints courts, développement force explosive" }

/-- KnowledgeBaseManager.get_zone_info (src/core/knowledge_base.py:191-194):
`return POWER_ZONES.get(zone_id)` — a plain dictionary `.get`, which yields
`None` (here `none`) for keys absent from the seven-entry POWER_ZONES table. -/
def get_zone_info (zone_id : String) : Option PowerZone :=
  if zone_id = "Z1" then some Z1
  else if zone_id = "Z2" then some Z2
  else if zone_id = "Z3" then some Z3
  else if zone_id = "Z4" then some Z4
  else if zone_id = "Z5" then some Z5
  else if zone_id = "Z6" then some Z6
  else if zone_id = "Z7" then some Z7
  else none

/-! Level adaptation table ATHLETE_ADAPTATIONS (src/core/knowledge_base.py:113-142).
The `recovery_ratio` entries of the source are the `recovery_ratio_q` fields. -/

/-- Per-level VO2max interval bounds (the `vo2max_intervals` sub-dict). -/
structure VO2maxAdapt where
  max_reps : ℤ
  max_duration : ℤ
  recovery_ratio_q : ℚ
deriving DecidableEq, Repr

/-- Per-level threshold interval bounds (the `threshold_intervals` sub-dict). -/
structure ThresholdAdapt where
  max_duration : ℤ
  recovery_ratio_q : ℚ
deriving DecidableEq, Repr

/-- One entry of ATHLETE_ADAPTATIONS. -/
structure Adaptations where
  vo2max_intervals : VO2maxAdapt
  threshold_intervals : ThresholdAdapt
  weekly_intensity : ℚ
  max_workout_duration : ℤ
  recommended_frequency : ℤ
deriving DecidableEq, Repr

/-- ATHLETE_ADAPTATIONS["beginner"] (src/core/knowledge_base.py:114-120). -/
def beginner_adaptations : Adaptations :=
  { vo2max_intervals := { max_reps := 3, max_duration := 3, recovery_ratio_q := 1.0 }
    threshold_intervals := { max_duration := 15, recovery_ratio_q := 0.5 }
    weekly_intensity := 0.15
    max_workout_duration := 90
    recommended_frequency := 3 }

/-- ATHLETE_ADAPTATIONS["intermediate"] (src/core/knowledge_base.py:121-127). -/
def intermediate_adaptations : Adaptations :=
  { vo2max_intervals := { max_reps := 5, max_duration := 5, recovery_ratio_q := 0.75 }
    threshold_intervals := { max_duration := 25, recovery_ratio_q := 0.25 }
    weekly_intensity := 0.20
    max_workout_duration := 120
    recommended_frequency := 4 }

/-- ATHLETE_ADAPTATIONS["advanced"] (src/core/knowledge_base.py:128-134). -/
def advanced_adaptations : Adaptations :=
  { vo2max_intervals := { max_reps := 6, max_duration := 8, recovery_ratio_q := 0.5 }
    threshold_intervals := { max_duration := 40, recovery_ratio_q := 0.25 }
    weekly_intensity := 0.25
    max_workout_duration := 180
    recommended_frequency := 5 }

/-- ATHLETE_ADAPTATIONS["elite"] (src/core/knowledge_base.py:135-141). -/
def elite_adaptations : Adaptations :=
  { vo2max_intervals := { max_reps := 8, max_duration := 8, recovery_ratio_q := 0.5 }
    threshold_intervals := { max_duration := 60, recovery_ratio_q := 0.2 }
    weekly_intensity := 0.30
    max_workout_duration := 240
    recommended_frequency := 6 }

/-- `self.adaptations.get(level, self.adaptations["intermediate"])`
(src/generators/workout_builder.py:48): lookup in the four-key
ATHLETE_ADAPTATIONS dictionary, defaulting to the intermediate entry. -/
def adaptationsFor (level : String) : Adaptations :=
  if level = "beginner" then beginner_adaptations
  else if level = "intermediate" then intermediate_adaptations
  else if level = "advanced" then advanced_adaptations
  else if level = "elite" then elite_adaptations
  else intermediate_adaptations

/-! Calculations (src/core/calculations.py, class TrainingCalculations). -/

/-- TrainingCalculations.calculate_tss (src/core/calculations.py:12-47).
Per segment: `duration_hours * avg_power_pct ** 2 * 100`; per repeated
interval: the work phase contribution with `work_duration * repetitions`
minutes, plus — only when `rest_duration > 0` — the analogous rest phase
contribution. The `ftp` argument is accepted and unused, as in the source. -/
def calculate_tss (segments : List WorkoutSegment)
    (intervals : List RepeatedInterval) (ftp : ℤ) : ℚ :=
  let seg_total : ℚ :=
    (segments.map fun s =>
      ((s.duration_minutes : ℚ) / 60) *
        (((s.power_pct_ftp.1 + s.power_pct_ftp.2) / 2) ^ 2) * 100).sum
  let interval_total : ℚ :=
    (intervals.map fun i =>
      let work_avg_pct := (i.work_power_pct.1 + i.work_power_pct.2) / 2
      let work_duration_hours := ((i.work_duration * i.repetitions : ℤ) : ℚ) / 60
      let work_tss := work_duration_hours * work_avg_pct ^ 2 * 100
      let rest_tss :=
        if 0 < i.rest_duration then
          (((i.rest_duration * i.repetitions : ℤ) : ℚ) / 60) *
            (((i.rest_power_pct.1 + i.rest_power_pct.2) / 2) ^ 2) * 100
        else 0
      work_tss + rest_tss).sum
  seg_total + interval_total

/-- The stress-score formula exactly as the specification words it
(spec.md §4.3): for each segment `durationHours × meanFractionalPower² × 100`;
for each interval block, the work-phase and rest-phase contributions computed
the same way, multiplied by the repetition count; sum all contributions. -/
def stressScoreSpec (segments : List WorkoutSegment)
    (intervals : List RepeatedInterval) (ftp : ℤ) : ℚ :=
  (segments.map fun s =>
    ((s.duration_minutes : ℚ) / 60) *
      (((s.power_pct_ftp.1 + s.power_pct_ftp.2) / 2) ^ 2) * 100).sum
  + (intervals.map fun i =>
      ((i.work_duration : ℚ) / 60) *
          (((i.work_power_pct.1 + i.work_power_pct.2) / 2) ^ 2) * 100 * i.repetitions
        + ((i.rest_duration : ℚ) / 60) *
          (((i.rest_power_pct.1 + i.rest_power_pct.2) / 2) ^ 2) * 100 * i.repetitions).sum

/-- TrainingCalculations.calculate_intensity_factor
(src/core/calculations.py:49-77). The body's first loop reads
`for segment in segments:` (line 56) but no name `segments` is bound in that
scope (the parameter is `workout`, and the module defines no global
`segments`), so every call raises `NameError` before any arithmetic runs.
The raised exception is modelled as an error result. -/
def calculate_intensity_factor (workout : SmartWorkout) : Except String ℚ :=
  Except.error "NameError: name segments is not defined"

/-- The intensity factor as the specification words it (spec.md §4.3):
time-weighted mean fractional power across all segments and interval phases,
0 when the total duration is 0. -/
def intensityFactorSpec (workout : SmartWorkout) : ℚ :=
  let seg_w : ℚ := (workout.segments.map fun s =>
    ((s.power_pct_ftp.1 + s.power_pct_ftp.2) / 2) * (s.duration_minutes : ℚ)).sum
  let seg_d : ℚ := (workout.segments.map fun s => (s.duration_minutes : ℚ)).sum
  let int_w : ℚ := (workout.repeated_intervals.map fun i =>
    ((i.work_power_pct.1 + i.work_power_pct.2) / 2) * ((i.work_duration * i.repetitions : ℤ) : ℚ)
      + ((i.rest_power_pct.1 + i.rest_power_pct.2) / 2) * ((i.rest_duration * i.repetitions : ℤ) : ℚ)).sum
  let int_d : ℚ := (workout.repeated_intervals.map fun i =>
    ((i.work_duration * i.repetitions : ℤ) : ℚ) + (i.rest_duration * i.repetitions : ℤ)).sum
  let total_weighted_power := seg_w + int_w
  let total_duration := seg_d + int_d
  if 0 < total_duration then total_weighted_power / total_duration else 0

/-- TrainingCalculations.validate_workout_structure
(src/core/calculations.py:140-176): issue strings accumulated in source
order — duration reconciliation (tolerance 5), per-segment power-range
checks, per-interval power-range checks, empty segment list, then the
warm-up and cool-down recommendations for sessions over 30 minutes. -/
def validate_workout_structure (workout : SmartWorkout) : List String :=
  let calculated_duration := workout.calculate_actual_duration
  let duration_issues :=
    if 5 < |calculated_duration - workout.total_duration| then
      ["Durée incohérente: calculée " ++ toString calculated_duration ++
        "min vs annoncée " ++ toString workout.total_duration ++ "min"]
    else []
  let segment_issues :=
    workout.segments.flatMap fun s =>
      (if s.power_pct_ftp.1 < 0.4 ∨ 3.0 < s.power_pct_ftp.2 then
        ["Zone de puissance invalide dans segment: " ++ toString s.power_pct_ftp]
      else []) ++
      (if s.power_pct_ftp.2 ≤ s.power_pct_ftp.1 then
        ["Puissance min >= max dans segment: " ++ toString s.power_pct_ftp]
      else [])
  let interval_issues :=
    workout.repeated_intervals.flatMap fun i =>
      (if i.work_power_pct.1 < 0.4 ∨ 3.0 < i.work_power_pct.2 then
        ["Zone de travail invalide: " ++ toString i.work_power_pct]
      else []) ++
      (if i.rest_power_pct.1 < 0.3 ∨ 1.0 < i.rest_power_pct.2 then
        ["Zone de repos invalide: " ++ toString i.rest_power_pct]
      else [])
  let empty_issues :=
    if workout.segments = [] then ["Aucun segment défini"] else []
  let has_warmup := workout.segments.any fun s => s.type == "Warmup"
  let has_cooldown := workout.segments.any fun s => s.type == "Cooldown"
  let warmup_issues :=
    if ¬has_warmup ∧ 30 < workout.total_duration then
      ["Échauffement recommandé pour séances > 30min"]
    else []
  let cooldown_issues :=
    if ¬has_cooldown ∧ 30 < workout.total_duration then
      ["Retour au calme recommandé pour séances > 30min"]
    else []
  duration_issues ++ segment_issues ++ interval_issues ++ empty_issues ++
    warmup_issues ++ cooldown_issues

/-! Workout builders (src/generators/workout_builder.py, class WorkoutBuilder). -/

/-- WorkoutBuilder._create_vo2max_workout
(src/generators/workout_builder.py:65-147): fixed warm-up (15), activation
(10) and cool-down (15); work duration `min(max_duration, 4)`; rest
`max(2, int(work × recovery_ratio))`; candidate repetitions
`min(max_reps, available_time // single_rep_time)` then `max(3, ·)`. -/
def create_vo2max_workout (duration : ℤ) (level : String) (ftp : ℤ)
    (adaptations : Adaptations) : SmartWorkout :=
  let max_reps := adaptations.vo2max_intervals.max_reps
  let max_duration := adaptations.vo2max_intervals.max_duration
  let recovery_ratio_q := adaptations.vo2max_intervals.recovery_ratio_q
  let z1_power := Z1.power_pct_ftp
  let z2_power := Z2.power_pct_ftp
  let z5_power := Z5.power_pct_ftp
  let work_duration := min max_duration 4
  let rest_duration := max 2 (pytrunc ((work_duration : ℚ) * recovery_ratio_q))
  let warmup_time : ℤ := 15
  let cooldown_time : ℤ := 15
  let activation_time : ℤ := 10
  let available_time := duration - warmup_time - cooldown_time - activation_time
  let single_rep_time := work_duration + rest_duration
  let calculated_reps := min max_reps (Int.fdiv available_time single_rep_time)
  let actual_reps := max 3 calculated_reps
  let segments : List WorkoutSegment :=
    [ { type := "Warmup"
        duration_minutes := warmup_time
        power_pct_ftp := (z1_power.1, z2_power.1)
        cadence_rpm := 85
        description := "Échauffement progressif avec activation cardiovasculaire"
        scientific_rationale := "Préparation du système cardiovasculaire et augmentation graduelle du flux sanguin musculaire" },
      { type := "SteadyState"
        duration_minutes := activation_time
        power_pct_ftp := z2_power
        cadence_rpm := 90
        description := "Activation aérobie pré-intervalles"
        scientific_rationale := "Activation des voies métaboliques aérobies avant les efforts en Zone 5" },
      { type := "Cooldown"
        duration_minutes := cooldown_time
        power_pct_ftp := (z1_power.1 * 0.8, z1_power.2)
        cadence_rpm := 80
        description := "Retour au calme actif pour élimination lactate"
        scientific_rationale := "Maintien circulation sanguine pour élimination déchets métaboliques" } ]
  let repeated_intervals : List RepeatedInterval :=
    [ { repetitions := actual_reps
        work_duration := work_duration
        work_power_pct := z5_power
        work_cadence := 100
        rest_duration := rest_duration
        rest_power_pct := z2_power
        rest_cadence := 85
        work_description := "VO2max Z5 - Puissance maximale aérobie"
        rest_description := "Récupération active Z2 - Maintien flux sanguin"
        scientific_rationale := "Intervalles " ++ toString actual_reps ++ "×" ++
          toString work_duration ++
          "min optimisés pour stimuler VO2max sans fatigue excessive pour niveau " ++ level } ]
  { name := "VO2max Optimisé " ++ toString actual_reps ++ "×" ++ toString work_duration ++ "min"
    type := "vo2max"
    description := "Séance VO2max scientifiquement optimisée pour niveau " ++ level ++
      " : " ++ toString actual_reps ++ " intervalles de " ++ toString work_duration ++
      " minutes en Zone 5"
    scientific_objective := "Amélioration de la Puissance Maximale Aérobie (PMA) et de la consommation maximale d'oxygène (VO2max) à travers des intervalles spécifiques de 3-4 minutes à 106-120% FTP"
    total_duration := duration
    segments := segments
    repeated_intervals := repeated_intervals
    ftp := ftp
    adaptation_notes := "Adapté pour " ++ level ++ ": " ++ toString actual_reps ++
      " répétitions (max " ++ toString max_reps ++ "), récupération ratio " ++
      toString recovery_ratio_q ++ ", cadence élevée (100 rpm) pour optimiser la vélocité"
    coaching_tips := "Maintenez une cadence élevée (95-105 rpm), respirez profondément, acceptez l'inconfort en fin d'intervalle. Focus sur la régularité plutôt que les pics de puissance." }

/-- The `for i, work_time in enumerate(work_blocks)` loop of
_create_threshold_workout (src/generators/workout_builder.py:197-212): the
index `i` counts up from its first argument; every block except the last
(`i < n − 1`, with `n` the block count) carries `recovery_time` of rest, the
last carries 0. -/
def threshold_blocks_loop (z4_power z2_power : ℚ × ℚ) (recovery_time : ℤ)
    (n : ℕ) : ℕ → List ℤ → List RepeatedInterval
  | _, [] => []
  | i, work_time :: rest =>
    { repetitions := 1
      work_duration := work_time
      work_power_pct := z4_power
      work_cadence := 95
      rest_duration := if i < n - 1 then recovery_time else 0
      rest_power_pct := z2_power
      rest_cadence := 85
      work_description := "Bloc seuil " ++ toString (i + 1) ++ "/" ++
        toString n ++ " - Maintenir FTP stable"
      rest_description := "Récupération active - Préparer bloc suivant"
      scientific_rationale := "Bloc " ++ toString work_time ++
        "min au seuil lactique (91-105% FTP) pour améliorer la capacité à métaboliser le lactate" }
      :: threshold_blocks_loop z4_power z2_power recovery_time n (i + 1) rest

/-- WorkoutBuilder._create_threshold_workout
(src/generators/workout_builder.py:149-225): two 20-minute blocks with
`int(20 × recovery_ratio)` recovery when `duration ≥ 80` and
`max_duration ≥ 20`; three 15-minute blocks with `int(15 × recovery_ratio)`
recovery when `duration ≥ 65` and `max_duration ≥ 15`; otherwise one block of
`min(max_duration, duration − 30)` with recovery 0. The last block of the
list always gets `rest_duration = 0`. -/
def create_threshold_workout (duration : ℤ) (level : String) (ftp : ℤ)
    (adaptations : Adaptations) : SmartWorkout :=
  let max_duration := adaptations.threshold_intervals.max_duration
  let recovery_ratio_q := adaptations.threshold_intervals.recovery_ratio_q
  let z1_power := Z1.power_pct_ftp
  let z2_power := Z2.power_pct_ftp
  let z4_power := Z4.power_pct_ftp
  let blocks_recovery : List ℤ × ℤ :=
    if 80 ≤ duration ∧ 20 ≤ max_duration then
      ([20, 20], pytrunc (20 * recovery_ratio_q))
    else if 65 ≤ duration ∧ 15 ≤ max_duration then
      ([15, 15, 15], pytrunc (15 * recovery_ratio_q))
    else
      let available_work := duration - 30
      let work_duration := min max_duration available_work
      ([work_duration], 0)
  let work_blocks := blocks_recovery.1
  let recovery_time := blocks_recovery.2
  let segments : List WorkoutSegment :=
    [ { type := "Warmup"
        duration_minutes := 15
        power_pct_ftp := (z1_power.1, z2_power.2)
        cadence_rpm := 85
        description := "Échauffement progressif avec préparation au seuil"
        scientific_rationale := "Préparation progressive au seuil lactique avec activation métabolique" },
      { type := "Cooldown"
        duration_minutes := 15
        power_pct_ftp := (z1_power.1 * 0.8, z1_power.2)
        cadence_rpm := 80
        description := "Retour au calme avec élimination lactate"
        scientific_rationale := "Élimination progressive du lactate accumulé" } ]
  let repeated_intervals : List RepeatedInterval :=
    threshold_blocks_loop z4_power z2_power recovery_time work_blocks.length 0 work_blocks
  { name := "Threshold " ++ String.intercalate "+" (work_blocks.map toString) ++ "min"
    type := "threshold"
    description := "Séance de seuil lactique avec " ++ toString work_blocks.length ++
      " bloc(s) pour améliorer le FTP et la capacité à maintenir des efforts soutenus"
    scientific_objective := "Amélioration du seuil lactique (FTP) et de la capacité à maintenir des efforts soutenus à l'intensité critique"
    total_duration := duration
    segments := segments
    repeated_intervals := repeated_intervals
    ftp := ftp
    adaptation_notes := "Adapté pour " ++ level ++ ": blocs de " ++
      toString work_blocks ++ " minutes, récupération " ++ toString recovery_ratio_q ++
      ", focus sur la régularité"
    coaching_tips := "Effort 'comfortablement dur' - limite de conversation. Maintenez une puissance stable, respirez de façon contrôlée, restez aérodynamique." }

/-- WorkoutBuilder._create_endurance_workout
(src/generators/workout_builder.py:227-278). -/
def create_endurance_workout (duration : ℤ) (level : String) (ftp : ℤ)
    (adaptations : Adaptations) : SmartWorkout :=
  let z1_power := Z1.power_pct_ftp
  let z2_power := Z2.power_pct_ftp
  let warmup_time := min 15 (Int.fdiv duration 6)
  let cooldown_time := min 15 (Int.fdiv duration 6)
  let main_time := duration - warmup_time - cooldown_time
  let segments : List WorkoutSegment :=
    [ { type := "Warmup"
        duration_minutes := warmup_time
        power_pct_ftp := (z1_power.1, z2_power.1)
        cadence_rpm := 85
        description := "Échauffement progressif en douceur"
        scientific_rationale := "Activation graduelle du système cardiovasculaire et préparation métabolique" },
      { type := "SteadyState"
        duration_minutes := main_time
        power_pct_ftp := z2_power
        cadence_rpm := 90
        description := "Endurance aérobie stable - conversation possible"
        scientific_rationale := "Développement des adaptations mitochondriales, amélioration de l'efficacité cardiaque et du métabolisme des graisses" },
      { type := "Cooldown"
        duration_minutes := cooldown_time
        power_pct_ftp := (z1_power.1 * 0.8, z1_power.2)
        cadence_rpm := 85
        description := "Retour au calme progressif"
        scientific_rationale := "Maintien de la circulation pour faciliter la récupération" } ]
  { name := "Endurance " ++ toString duration ++ "min"
    type := "endurance"
    description := "Séance d'endurance aérobie de " ++ toString main_time ++
      " minutes pour développer la base cardiovasculaire"
    scientific_objective := "Développement de l'endurance fondamentale, amélioration de l'efficacité cardiaque et du métabolisme des graisses"
    total_duration := duration
    segments := segments
    repeated_intervals := []
    ftp := ftp
    adaptation_notes := "Intensité modérée pour " ++ level ++
      ", focus sur l'efficacité du pédalage et la respiration"
    coaching_tips := "Maintenez une conversation possible, cadence fluide 85-95 rpm, respiration nasale si possible. Hydratez-vous régulièrement." }

/-- WorkoutBuilder._create_recovery_workout
(src/generators/workout_builder.py:280-308): one single SteadyState segment
covering the whole duration at 90% of the Z1 band; no warm-up, no cool-down,
no repeated intervals. -/
def create_recovery_workout (duration : ℤ) (level : String) (ftp : ℤ)
    (adaptations : Adaptations) : SmartWorkout :=
  let z1_power := Z1.power_pct_ftp
  let segments : List WorkoutSegment :=
    [ { type := "SteadyState"
        duration_minutes := duration
        power_pct_ftp := (z1_power.1 * 0.9, z1_power.2 * 0.9)
        cadence_rpm := 85
        description := "Récupération active - pédalage très fluide"
        scientific_rationale := "Maintien circulation sanguine pour élimination déchets métaboliques et favoriser la récupération" } ]
  { name := "Recovery " ++ toString duration ++ "min"
    type := "recovery"
    description := "Séance de récupération active de " ++ toString duration ++
      " minutes pour favoriser la régénération"
    scientific_objective := "Favoriser la récupération par maintien d'une circulation sanguine optimale et élimination des déchets métaboliques"
    total_duration := duration
    segments := segments
    repeated_intervals := []
    ftp := ftp
    adaptation_notes := "Intensité très légère, focus sur la fluidité du mouvement"
    coaching_tips := "Pédalage très décontracté, cadence naturelle, respiration profonde. L'objectif est la récupération, pas l'entraînement." }

/-- The `for i, block_duration in enumerate(tempo_blocks)` loop of
_create_tempo_workout (src/generators/workout_builder.py:357-371): every
block except the last carries `recovery_between` of rest, the last 0. -/
def tempo_blocks_loop (z3_power z2_power : ℚ × ℚ) (recovery_between : ℤ)
    (n : ℕ) : ℕ → List ℤ → List RepeatedInterval
  | _, [] => []
  | i, block_duration :: rest =>
    { repetitions := 1
      work_duration := block_duration
      work_power_pct := z3_power
      work_cadence := 90
      rest_duration := if i < n - 1 then recovery_between else 0
      rest_power_pct := z2_power
      rest_cadence := 85
      work_description := "Bloc tempo " ++ toString (i + 1) ++ "/" ++
        toString n ++ " - Rythme soutenu"
      rest_description := "Récupération active"
      scientific_rationale := "Bloc tempo " ++ toString block_duration ++
        "min en Zone 3 pour développer l'endurance musculaire" }
      :: tempo_blocks_loop z3_power z2_power recovery_between n (i + 1) rest

/-- WorkoutBuilder._create_tempo_workout
(src/generators/workout_builder.py:310-384). -/
def create_tempo_workout (duration : ℤ) (level : String) (ftp : ℤ)
    (adaptations : Adaptations) : SmartWorkout :=
  let z1_power := Z1.power_pct_ftp
  let z2_power := Z2.power_pct_ftp
  let z3_power := Z3.power_pct_ftp
  let warmup_time : ℤ := 15
  let cooldown_time : ℤ := 15
  let available_time := duration - warmup_time - cooldown_time
  let blocks_recovery : List ℤ × ℤ :=
    if 40 ≤ available_time then ([20, 20], 5)
    else if 25 ≤ available_time then ([available_time - 5], 0)
    else ([available_time], 0)
  let tempo_blocks := blocks_recovery.1
  let recovery_between := blocks_recovery.2
  let segments : List WorkoutSegment :=
    [ { type := "Warmup"
        duration_minutes := warmup_time
        power_pct_ftp := (z1_power.1, z2_power.2)
        cadence_rpm := 85
        description := "Échauffement progressif"
        scientific_rationale := "Préparation au tempo" },
      { type := "Cooldown"
        duration_minutes := cooldown_time
        power_pct_ftp := (z1_power.1, z1_power.2)
        cadence_rpm := 80
        description := "Retour au calme"
        scientific_rationale := "Récupération progressive" } ]
  let repeated_intervals : List RepeatedInterval :=
    tempo_blocks_loop z3_power z2_power recovery_between tempo_blocks.length 0 tempo_blocks
  { name := "Tempo " ++ String.intercalate "+" (tempo_blocks.map toString) ++ "min"
    type := "tempo"
    description := "Séance tempo avec " ++ toString tempo_blocks.length ++
      " bloc(s) pour développer l'endurance musculaire"
    scientific_objective := "Développement de l'endurance musculaire et de la capacité aérobie par des efforts soutenus en Zone 3"
    total_duration := duration
    segments := segments
    repeated_intervals := repeated_intervals
    ftp := ftp
    adaptation_notes := "Effort soutenu mais contrôlable pour " ++ level
    coaching_tips := "Rythme soutenu mais gérable, maintenir une respiration contrôlée. Idéal pour préparation aux courses longues." }

/-- WorkoutBuilder.create_smart_workout
(src/generators/workout_builder.py:43-63): level lookup with fallback to
"intermediate", then case-insensitive type dispatch; unrecognized types fall
back to the VO2max template. No input validation of any kind is performed. -/
def create_smart_workout (workout_type : String) (duration : ℤ)
    (level : String) (ftp : ℤ) : SmartWorkout :=
  let level_adaptations := adaptationsFor level
  if pyLower workout_type ∈ ["vo2max", "vo2", "pma"] then
    create_vo2max_workout duration level ftp level_adaptations
  else if pyLower workout_type ∈ ["threshold", "seuil", "ftp"] then
    create_threshold_workout duration level ftp level_adaptations
  else if pyLower workout_type ∈ ["endurance", "z2", "base"] then
    create_endurance_workout duration level ftp level_adaptations
  else if pyLower workout_type ∈ ["recovery", "recuperation", "z1"] then
    create_recovery_workout duration level ftp level_adaptations
  else if pyLower workout_type ∈ ["tempo", "z3"] then
    create_tempo_workout duration level ftp level_adaptations
  else
    create_vo2max_workout duration level ftp level_adaptations

/-! Periodization engine (src/periodization_system.py). -/

/-- TrainingPhase (src/periodization_system.py:22-28). -/
inductive TrainingPhase where
  | BASE
  | BUILD
  | PEAK
  | RECOVERY
  | COMPETITION
  | TRANSITION
deriving DecidableEq, Repr

/-- One entry of the phase list built by AdvancedPeriodizationEngine:
the dicts `{"phase": …, "weeks": …, "description": …}`. -/
structure PhaseInfo where
  phase : TrainingPhase
  weeks : ℤ
  description : String
deriving DecidableEq, Repr

/-- AdvancedPeriodizationEngine._create_standard_phases
(src/periodization_system.py:225-268): length-dependent ratio split; base and
build week counts are `max(1, int(weeks × ratio))`; peak weeks are the
remainder `duration_weeks − base_weeks − build_weeks` (no floor). -/
def create_standard_phases (duration_weeks : ℤ) : List PhaseInfo :=
  let fracs : ℚ × ℚ × ℚ :=
    if 12 ≤ duration_weeks then (0.5, 0.3, 0.2)
    else if 8 ≤ duration_weeks then (0.4, 0.4, 0.2)
    else (0.3, 0.5, 0.2)
  let base_weeks := max 1 (pytrunc ((duration_weeks : ℚ) * fracs.1))
  let build_weeks := max 1 (pytrunc ((duration_weeks : ℚ) * fracs.2.1))
  let peak_weeks := duration_weeks - base_weeks - build_weeks
  [ { phase := .BASE, weeks := base_weeks, description := "Développement de la base aérobie" },
    { phase := .BUILD, weeks := build_weeks, description := "Développement de la puissance" },
    { phase := .PEAK, weeks := peak_weeks, description := "Optimisation de la forme" } ]

/-- The Coggan `ftp_improvement` table (src/periodization_system.py:105-109)
read with `.get(level, 0.08)` (src/periodization_system.py:546). -/
def ftp_improvement_rate (level : String) : ℚ :=
  if level = "beginner" then 0.15
  else if level = "intermediate" then 0.08
  else if level = "advanced" then 0.05
  else 0.08

/-- AdvancedPeriodizationEngine._calculate_projected_ftp
(src/periodization_system.py:541-554):
`int(current_ftp + current_ftp * max_improvement * min(1.0, weeks / 20))`. -/
def calculate_projected_ftp (current_ftp : ℤ) (level : String) (weeks : ℤ) : ℤ :=
  let max_improvement := ftp_improvement_rate level
  let time_factor : ℚ := min 1.0 ((weeks : ℚ) / 20)
  let improvement : ℚ := (current_ftp : ℚ) * max_improvement * time_factor
  pytrunc ((current_ftp : ℚ) + improvement)

/-! Helper lemmas. -/

/-- Truncation toward zero is monotone. -/
theorem pytrunc_mono {a b : ℚ} (h : a ≤ b) : pytrunc a ≤ pytrunc b := by
  unfold pytrunc
  by_cases ha : 0 ≤ a
  · rw [if_pos ha, if_pos (le_trans ha h)]
    exact Int.floor_le_floor h
  · rw [if_neg ha]
    by_cases hb : 0 ≤ b
    · rw [if_pos hb]
      calc ⌈a⌉ ≤ 0 := Int.ceil_le.mpr (by exact_mod_cast le_of_lt (lt_of_not_le ha))
        _ ≤ ⌊b⌋ := Int.floor_nonneg.mpr hb
    · rw [if_neg hb]
      exact Int.ceil_le_ceil h

/-- On nonnegative rationals, truncation toward zero is the floor. -/
theorem pytrunc_of_nonneg {a : ℚ} (h : 0 ≤ a) : pytrunc a = ⌊a⌋ := if_pos h

/-- Evaluation rule for `pytrunc` on nonnegative values. -/
theorem pytrunc_eq (q : ℚ) (z : ℤ) (h0 : 0 ≤ q) (h1 : (z : ℚ) ≤ q)
    (h2 : q < z + 1) : pytrunc q = z := by
  rw [pytrunc_of_nonneg h0, Int.floor_eq_iff]
  exact ⟨h1, h2⟩

/-- The adaptation lookup always resolves to one of the four table entries. -/
theorem adaptationsFor_eq (level : String) :
    adaptationsFor level = beginner_adaptations
    ∨ adaptationsFor level = intermediate_adaptations
    ∨ adaptationsFor level = advanced_adaptations
    ∨ adaptationsFor level = elite_adaptations := by
  unfold adaptationsFor
  split
  · exact Or.inl rfl
  · split
    · exact Or.inr (Or.inl rfl)
    · split
      · exact Or.inr (Or.inr (Or.inl rfl))
      · split
        · exact Or.inr (Or.inr (Or.inr rfl))
        · exact Or.inr (Or.inl rfl)

/-- Every level admits at least 3 VO2max repetitions in the adaptation table. -/
theorem three_le_max_reps (level : String) :
    3 ≤ (adaptationsFor level).vo2max_intervals.max_reps := by
  rcases adaptationsFor_eq level with h | h | h | h <;> rw [h] <;> decide

/-- The FTP improvement rate is nonnegative for every level string. -/
theorem ftp_improvement_rate_nonneg (level : String) :
    0 ≤ ftp_improvement_rate level := by
  unfold ftp_improvement_rate
  split
  · norm_num
  · split
    · norm_num
    · split <;> norm_num

/-- Sums of pointwise-equal maps agree. -/
theorem sum_map_congr {α : Type} (l : List α) (f g : α → ℚ)
    (h : ∀ a ∈ l, f a = g a) : (l.map f).sum = (l.map g).sum := by
  induction l with
  | nil => rfl
  | cons x xs ih =>
    simp only [List.map_cons, List.sum_cons]
    rw [h x (List.mem_cons_self x xs), ih fun a ha => h a (List.mem_cons_of_mem x ha)]

/-- C9 counterexample: for the block 2×(3min work + 2min rest) the code's
total duration is 10 = repetitions × (work + rest), not the claimed
repetitions × (work + rest) − rest = 8: the final rest is NOT omitted. -/
theorem C9_counterexample :
    RepeatedInterval.get_total_duration
      { repetitions := 2, work_duration := 3, work_power_pct := (1.06, 1.2),
        work_cadence := 100, rest_duration := 2, rest_power_pct := (0.56, 0.75),
        rest_cadence := 85, work_description := "w", rest_description := "r" } = 10
    ∧ (10 : ℤ) ≠ 2 * (3 + 2) - 2 := by
  exact ⟨rfl, by decide⟩

/-- C9 (amended): the total duration of a RepeatedInterval equals
repetitions × (work duration + rest duration), with the trailing rest of the
final repetition included. -/
theorem C9_total_duration (i : RepeatedInterval) :
    i.get_total_duration = i.repetitions * (i.work_duration + i.rest_duration) := rfl

/-- C8 counterexample: the zone lookup does not fail on the unknown
identifier "Z9"; it silently returns the absent value. -/
theorem C8_counterexample : get_zone_info "Z9" = none := by decide

/-- C8 (amended): for every identifier outside the seven-entry power-zone
table the lookup silently returns `none` (no NotFoundError is raised), and
for each known identifier it returns that zone's record. -/
theorem C8_lookup :
    (∀ zid : String, zid ∉ ["Z1", "Z2", "Z3", "Z4", "Z5", "Z6", "Z7"] →
        get_zone_info zid = none)
    ∧ get_zone_info "Z1" = some Z1 ∧ get_zone_info "Z2" = some Z2
    ∧ get_zone_info "Z3" = some Z3 ∧ get_zone_info "Z4" = some Z4
    ∧ get_zone_info "Z5" = some Z5 ∧ get_zone_info "Z6" = some Z6
    ∧ get_zone_info "Z7" = some Z7 := by
  refine ⟨?_, rfl, rfl, rfl, rfl, rfl, rfl, rfl⟩
  intro zid h
  simp only [List.mem_cons, List.not_mem_nil, or_false, not_or] at h
  obtain ⟨h1, h2, h3, h4, h5, h6, h7⟩ := h
  simp [get_zone_info, h1, h2, h3, h4, h5, h6, h7]

/-- C8 witness: instantiating the lookup theorem at the unknown key "Z9" and
at the known key "Z4". -/
theorem C8_lookup_witness :
    get_zone_info "Z9" = none ∧ get_zone_info "Z4" = some Z4 :=
  ⟨C8_lookup.1 "Z9" (by decide), C8_lookup.2.2.2.2.1⟩

/-- C5: the intensity-factor computation never returns a value — its first
loop reads the unbound name `segments` (src/core/calculations.py:56), so it
raises NameError on every call, including on the well-formed 60-minute
recovery session, instead of returning the time-weighted mean fractional
power (which the spec formula evaluates to 0.45 there). -/
theorem C5_name_error :
    calculate_intensity_factor (create_smart_workout "recovery" 60 "intermediate" 320)
      = Except.error "NameError: name segments is not defined"
    ∧ intensityFactorSpec (create_smart_workout "recovery" 60 "intermediate" 320) = 0.45
    ∧ ∀ (w : SmartWorkout) (q : ℚ), calculate_intensity_factor w ≠ Except.ok q := by
  refine ⟨rfl, ?_, fun w q h => Except.noConfusion h⟩
  have hw : create_smart_workout "recovery" 60 "intermediate" 320
      = create_recovery_workout 60 "intermediate" 320 intermediate_adaptations := rfl
  rw [hw]
  norm_num [intensityFactorSpec, create_recovery_workout, Z1]

/-- C4 counterexample: for the non-positive inputs duration = −5 and
thresholdPower = −10 the builder does not fail with a ValidationError; it
returns a recovery workout (one segment, announced duration −5). -/
theorem C4_counterexample :
    (create_smart_workout "recovery" (-5) "intermediate" (-10)).total_duration = -5
    ∧ (create_smart_workout "recovery" (-5) "intermediate" (-10)).segments.length = 1 := by
  have hw : create_smart_workout "recovery" (-5) "intermediate" (-10)
      = create_recovery_workout (-5) "intermediate" (-10) intermediate_adaptations := rfl
  rw [hw]
  exact ⟨rfl, rfl⟩

/-- C4 (amended): the builder performs no input validation at all — for
every workout type, duration (including ≤ 0), level, and threshold power
(including ≤ 0) it returns a workout with a non-empty segment list, relying
on the documented type/level fallbacks rather than raising. -/
theorem C4_no_validation (workout_type : String) (duration : ℤ)
    (level : String) (ftp : ℤ) :
    (create_smart_workout workout_type duration level ftp).segments ≠ [] := by
  unfold create_smart_workout
  repeat' split
  all_goals exact List.cons_ne_nil _ _

/-- C6 counterexample: for a 2-week plan the standard phase split gives the
Peak phase 0 weeks, so it is false that every phase gets at least 1 week. -/
theorem C6_counterexample :
    ¬ ∀ p ∈ create_standard_phases 2, 1 ≤ p.weeks := by
  have h2 : create_standard_phases 2 =
      [ { phase := .BASE, weeks := 1, description := "Développement de la base aérobie" },
        { phase := .BUILD, weeks := 1, description := "Développement de la puissance" },
        { phase := .PEAK, weeks := 0, description := "Optimisation de la forme" } ] := by
    unfold create_standard_phases
    have hbase : pytrunc ((3 : ℚ) / 5) = 0 :=
      pytrunc_eq _ _ (by norm_num) (by norm_num) (by norm_num)
    have hbuild : pytrunc ((1 : ℚ)) = 1 :=
      pytrunc_eq _ _ (by norm_num) (by norm_num) (by norm_num)
    norm_num [hbase, hbuild, sup_eq_max, max_def]
  intro h
  have := h { phase := .PEAK, weeks := 0, description := "Optimisation de la forme" }
    (by rw [h2]; simp)
  norm_num at this

/-- C6 (amended): the standard (no-target-event) allocation always yields
exactly the three phases Base, Build, Peak in order; Base and Build each get
at least 1 week (floored), while Peak gets the remainder — which can be 0 or
negative for very short plans — and the three counts always sum exactly to
the total duration; for a 16-week plan the split is 8/4/4. -/
theorem C6_phases :
    (∀ w : ℤ, ((create_standard_phases w).map fun ph => ph.phase)
          = [TrainingPhase.BASE, TrainingPhase.BUILD, TrainingPhase.PEAK]
        ∧ ((create_standard_phases w).map fun ph => ph.weeks).sum = w
        ∧ ∀ ph ∈ (create_standard_phases w).take 2, 1 ≤ ph.weeks)
    ∧ (create_standard_phases 16).map (fun ph => ph.weeks) = [8, 4, 4] := by
  constructor
  · intro w
    refine ⟨rfl, ?_, ?_⟩
    · show max 1 (pytrunc _) + (max 1 (pytrunc _) + (_ + 0)) = w
      ring
    · intro ph hph
      simp only [create_standard_phases, List.take, List.mem_cons,
        List.not_mem_nil, or_false] at hph
      rcases hph with rfl | rfl <;> exact le_max_left _ _
  · have hbase : pytrunc ((8 : ℚ)) = 8 :=
      pytrunc_eq _ _ (by norm_num) (by norm_num) (by norm_num)
    have hbuild : pytrunc ((24 : ℚ) / 5) = 4 :=
      pytrunc_eq _ _ (by norm_num) (by norm_num) (by norm_num)
    norm_num [create_standard_phases, hbase, hbuild, sup_eq_max, max_def]

/-- C1: the stress score equals the spec formula — per segment
durationHours × meanFractionalPower² × 100, per interval block work- and
rest-phase contributions computed the same way multiplied by the repetition
count — for every segment list, every interval list with (physically
meaningful) nonnegative rest durations, and every threshold power; and a
single 60-minute segment at fractional-power range exactly (1.0, 1.0) scores
exactly 100. -/
theorem C1_stress_score :
    (∀ (segments : List WorkoutSegment) (intervals : List RepeatedInterval) (ftp : ℤ),
        (∀ i ∈ intervals, 0 ≤ i.rest_duration) →
        calculate_tss segments intervals ftp = stressScoreSpec segments intervals ftp)
    ∧ calculate_tss
        [{ type := "SteadyState", duration_minutes := 60, power_pct_ftp := (1.0, 1.0),
           cadence_rpm := 90, description := "steady" }] [] 320 = 100 := by
  constructor
  · intro segments intervals ftp h
    simp only [calculate_tss, stressScoreSpec]
    congr 1
    apply sum_map_congr
    intro i hi
    have hrest := h i hi
    by_cases hpos : 0 < i.rest_duration
    · rw [if_pos hpos]
      push_cast
      ring
    · rw [if_neg hpos]
      have h0 : i.rest_duration = 0 := le_antisymm (not_lt.mp hpos) hrest
      rw [h0]
      push_cast
      ring
  · norm_num [calculate_tss]

/-- C1 witness: the formula equivalence instantiated on a concrete warm-up
segment plus a concrete 5×4min interval block, together with the concrete
60-minute score of 100. -/
theorem C1_witness :
    calculate_tss
        [{ type := "Warmup", duration_minutes := 15, power_pct_ftp := (0.45, 0.56),
           cadence_rpm := 85, description := "w" }]
        [{ repetitions := 5, work_duration := 4, work_power_pct := (1.06, 1.2),
           work_cadence := 100, rest_duration := 3, rest_power_pct := (0.56, 0.75),
           rest_cadence := 85, work_description := "wd", rest_description := "rd" }] 320
      = stressScoreSpec
        [{ type := "Warmup", duration_minutes := 15, power_pct_ftp := (0.45, 0.56),
           cadence_rpm := 85, description := "w" }]
        [{ repetitions := 5, work_duration := 4, work_power_pct := (1.06, 1.2),
           work_cadence := 100, rest_duration := 3, rest_power_pct := (0.56, 0.75),
           rest_cadence := 85, work_description := "wd", rest_description := "rd" }] 320
    ∧ calculate_tss
        [{ type := "SteadyState", duration_minutes := 60, power_pct_ftp := (1.0, 1.0),
           cadence_rpm := 90, description := "steady" }] [] 320 = 100 := by
  refine ⟨C1_stress_score.1 _ _ _ ?_, C1_stress_score.2⟩
  intro i hi
  simp only [List.mem_singleton] at hi
  subst hi
  norm_num

/-- C2: for every requested duration (however short), every level and every
threshold power, the VO2max session holds exactly one repeated-interval block
whose repetition count is the remaining-time candidate clamped to
[3, level.maxReps]; and for a concrete 10-minute request the produced total
duration (61 min) exceeds the request while the 3-repetition floor holds. -/
theorem C2_vo2max_reps :
    (∀ (duration : ℤ) (level : String) (ftp : ℤ),
        ∃ r : ℤ,
          ((create_smart_workout "vo2max" duration level ftp).repeated_intervals.map
            fun i => i.repetitions) = [r]
          ∧ 3 ≤ r ∧ r ≤ (adaptationsFor level).vo2max_intervals.max_reps)
    ∧ 10 < (create_smart_workout "vo2max" 10 "intermediate" 320).calculate_actual_duration := by
  constructor
  · intro duration level ftp
    have hd : create_smart_workout "vo2max" duration level ftp
        = create_vo2max_workout duration level ftp (adaptationsFor level) := rfl
    rw [hd]
    exact ⟨_, rfl, le_max_left _ _, max_le (three_le_max_reps level) (min_le_left _ _)⟩
  · have hd : create_smart_workout "vo2max" 10 "intermediate" 320
        = create_vo2max_workout 10 "intermediate" 320 intermediate_adaptations := rfl
    rw [hd]
    have hp : pytrunc ((3 : ℚ)) = 3 :=
      pytrunc_eq _ _ (by norm_num) (by norm_num) (by norm_num)
    have hfdiv : Int.fdiv (-30 : ℤ) 7 = -5 := by decide
    norm_num [create_vo2max_workout, intermediate_adaptations,
      SmartWorkout.calculate_actual_duration, RepeatedInterval.get_total_duration,
      hp, hfdiv, sup_eq_max, inf_eq_min, max_def, min_def]

/-- C3 counterexample: at current FTP 321, beginner level and 20 weeks the
code returns 369 (integer truncation) while the claimed formula value is
321 + 321 × 0.15 × 1 = 369.15 — so the projection does not equal the exact
formula. -/
theorem C3_counterexample :
    ((calculate_projected_ftp 321 "beginner" 20 : ℤ) : ℚ)
      ≠ (321 : ℚ) + 321 * ftp_improvement_rate "beginner" * min 1 ((20 : ℚ) / 20) := by
  have hr : ftp_improvement_rate "beginner" = 0.15 := rfl
  have h1 : calculate_projected_ftp 321 "beginner" 20 = 369 := by
    simp only [calculate_projected_ftp]
    exact pytrunc_eq _ _ (by rw [hr]; norm_num) (by rw [hr]; norm_num)
      (by rw [hr]; norm_num)
  rw [h1, hr]
  norm_num

/-- C3 (amended): the projected FTP equals the integer truncation of
current + current × maxImprovement(level) × min(1, weeks/20) (beginner 15%,
intermediate 8%, advanced 5%, anything else 8%); for every nonnegative
current FTP it is monotonically non-decreasing in weeks; and it is constant
for all week counts at or beyond 20. -/
theorem C3_projection :
    (∀ (c : ℤ) (level : String) (w : ℤ),
        calculate_projected_ftp c level w
          = pytrunc ((c : ℚ) + (c : ℚ) * ftp_improvement_rate level * min 1 ((w : ℚ) / 20)))
    ∧ (∀ (c : ℤ) (level : String) (w w' : ℤ), 0 ≤ c → w ≤ w' →
        calculate_projected_ftp c level w ≤ calculate_projected_ftp c level w')
    ∧ (∀ (c : ℤ) (level : String) (w : ℤ), 20 ≤ w →
        calculate_projected_ftp c level w = calculate_projected_ftp c level 20) := by
  refine ⟨?_, ?_, ?_⟩
  · intro c level w
    unfold calculate_projected_ftp
    norm_num
  · intro c level w w' hc hw
    unfold calculate_projected_ftp
    apply pytrunc_mono
    apply add_le_add_left
    apply mul_le_mul_of_nonneg_left
    · exact min_le_min le_rfl ((div_le_div_right (by norm_num)).mpr (by exact_mod_cast hw))
    · exact mul_nonneg (by exact_mod_cast hc) (ftp_improvement_rate_nonneg level)
  · intro c level w hw
    unfold calculate_projected_ftp
    have h1 : min (1.0 : ℚ) ((w : ℚ) / 20) = 1 := by
      rw [min_eq_left]
      · norm_num
      · rw [le_div_iff (by norm_num)]
        have h20 : (20 : ℚ) ≤ (w : ℚ) := by exact_mod_cast hw
        linarith
    have h2 : min (1.0 : ℚ) (((20 : ℤ) : ℚ) / 20) = 1 := by norm_num
    rw [h1, h2]

/-- C3 witness: the monotonicity and saturation parts of the projection
theorem instantiated at FTP 320, beginner level, weeks 10 ≤ 20 and 25 ≥ 20. -/
theorem C3_witness :
    calculate_projected_ftp 320 "beginner" 10 ≤ calculate_projected_ftp 320 "beginner" 20
    ∧ calculate_projected_ftp 320 "beginner" 25 = calculate_projected_ftp 320 "beginner" 20 :=
  ⟨C3_projection.2.1 320 "beginner" 10 20 (by norm_num) (by norm_num),
   C3_projection.2.2 320 "beginner" 25 (by norm_num)⟩

/-- C7 counterexample: at duration 80 and level "elite" (whose threshold
max block duration 60 ≥ 20, recovery ratio 0.2) the two 20-minute blocks are
separated by int(20 × 0.2) = 4 minutes of recovery, not 5. -/
theorem C7_counterexample :
    ((create_smart_workout "threshold" 80 "elite" 320).repeated_intervals.map
        fun i => i.rest_duration) = [4, 0] ∧ (4 : ℤ) ≠ 5 := by
  constructor
  · have hd : create_smart_workout "threshold" 80 "elite" 320
        = create_threshold_workout 80 "elite" 320 elite_adaptations := rfl
    rw [hd]
    have hp : pytrunc ((4 : ℚ)) = 4 :=
      pytrunc_eq _ _ (by norm_num) (by norm_num) (by norm_num)
    norm_num [create_threshold_workout, elite_adaptations, threshold_blocks_loop, hp]
  · decide

/-- C7 (amended): whenever the requested duration is ≥ 80 minutes and the
level's threshold max block duration is ≥ 20, the session holds exactly two
20-minute work blocks, the first followed by int(20 × level recovery ratio)
minutes of recovery (5 for intermediate/advanced whose ratio is 0.25, 4 for
elite whose ratio is 0.2) and the second by none; and whenever the session
degrades to a single work block, that block's recovery time is 0. -/
theorem C7_threshold_blocks :
    (∀ (duration : ℤ) (level : String) (ftp : ℤ),
        80 ≤ duration →
        20 ≤ (adaptationsFor level).threshold_intervals.max_duration →
        ((create_smart_workout "threshold" duration level ftp).repeated_intervals.map
            fun i => (i.work_duration, i.rest_duration))
          = [(20, pytrunc (20 * (adaptationsFor level).threshold_intervals.recovery_ratio_q)),
             (20, 0)])
    ∧ (∀ (duration : ℤ) (level : String) (ftp : ℤ),
        (create_smart_workout "threshold" duration level ftp).repeated_intervals.length = 1 →
        ((create_smart_workout "threshold" duration level ftp).repeated_intervals.map
            fun i => i.rest_duration) = [0]) := by
  constructor
  · intro duration level ftp h80 h20
    have hd : create_smart_workout "threshold" duration level ftp
        = create_threshold_workout duration level ftp (adaptationsFor level) := rfl
    rw [hd]
    simp only [create_threshold_workout]
    rw [if_pos ⟨h80, h20⟩]
    simp [threshold_blocks_loop]
  · intro duration level ftp hlen
    have hd : create_smart_workout "threshold" duration level ftp
        = create_threshold_workout duration level ftp (adaptationsFor level) := rfl
    rw [hd] at hlen ⊢
    simp only [create_threshold_workout] at hlen ⊢
    split_ifs at hlen ⊢ with h1 h2
    · simp [threshold_blocks_loop] at hlen
    · simp [threshold_blocks_loop] at hlen
    · simp [threshold_blocks_loop]

/-- C7 witness: the two-block conclusion instantiated at duration 80, level
"intermediate" (ratio 0.25, so recovery 5), and the single-block conclusion
at duration 40, level "intermediate". -/
theorem C7_witness :
    ((create_smart_workout "threshold" 80 "intermediate" 320).repeated_intervals.map
        fun i => (i.work_duration, i.rest_duration)) = [(20, 5), (20, 0)]
    ∧ ((create_smart_workout "threshold" 40 "intermediate" 320).repeated_intervals.map
        fun i => i.rest_duration) = [0] := by
  constructor
  · have h := C7_threshold_blocks.1 80 "intermediate" 320 (by norm_num) (by decide)
    rw [h]
    have ha : adaptationsFor "intermediate" = intermediate_adaptations := rfl
    have hp : pytrunc ((5 : ℚ)) = 5 :=
      pytrunc_eq _ _ (by norm_num) (by norm_num) (by norm_num)
    norm_num [ha, intermediate_adaptations, hp]
  · apply C7_threshold_blocks.2 40 "intermediate" 320
    have hd : create_smart_workout "threshold" 40 "intermediate" 320
        = create_threshold_workout 40 "intermediate" 320 intermediate_adaptations := rfl
    rw [hd]
    norm_num [create_threshold_workout, intermediate_adaptations, threshold_blocks_loop]

/-- C10: every recovery session built by the builder with duration over 30
minutes is a single SteadyState segment with no Warmup and no Cooldown, so
the structural validation flags both the missing warm-up and the missing
cool-down and returns a non-empty issue list. -/
theorem C10_recovery_validation (duration : ℤ) (level : String) (ftp : ℤ)
    (h : 30 < duration) :
    ((create_smart_workout "recovery" duration level ftp).segments.map fun s => s.type)
        = ["SteadyState"]
    ∧ "Échauffement recommandé pour séances > 30min"
        ∈ validate_workout_structure (create_smart_workout "recovery" duration level ftp)
    ∧ "Retour au calme recommandé pour séances > 30min"
        ∈ validate_workout_structure (create_smart_workout "recovery" duration level ftp)
    ∧ validate_workout_structure (create_smart_workout "recovery" duration level ftp) ≠ [] := by
  have hd : create_smart_workout "recovery" duration level ftp
      = create_recovery_workout duration level ftp (adaptationsFor level) := rfl
  have hv : validate_workout_structure
        (create_recovery_workout duration level ftp (adaptationsFor level))
      = ["Échauffement recommandé pour séances > 30min",
         "Retour au calme recommandé pour séances > 30min"] := by
    have hW : (("SteadyState" : String) == "Warmup") = false := by decide
    have hC : (("SteadyState" : String) == "Cooldown") = false := by decide
    simp only [validate_workout_structure, create_recovery_workout,
      SmartWorkout.calculate_actual_duration, RepeatedInterval.get_total_duration,
      List.map_cons, List.map_nil, List.sum_cons, List.sum_nil, List.flatMap_cons,
      List.flatMap_nil, List.any_cons, List.any_nil, hW, hC, Z1]
    norm_num [h]
  rw [hd, hv]
  exact ⟨by simp [create_recovery_workout], by simp, by simp, by simp⟩

/-- C10 witness: the validation conclusion instantiated on the 45-minute
recovery session at intermediate level and FTP 320. -/
theorem C10_witness :
    ((create_smart_workout "recovery" 45 "intermediate" 320).segments.map fun s => s.type)
        = ["SteadyState"]
    ∧ "Échauffement recommandé pour séances > 30min"
        ∈ validate_workout_structure (create_smart_workout "recovery" 45 "intermediate" 320)
    ∧ "Retour au calme recommandé pour séances > 30min"
        ∈ validate_workout_structure (create_smart_workout "recovery" 45 "intermediate" 320)
    ∧ validate_workout_structure (create_smart_workout "recovery" 45 "intermediate" 320) ≠ [] :=
  C10_recovery_validation 45 "intermediate" 320 (by norm_num)
